import Mathlib

/-!
Shallow embedding of the ExpenseBuddy backend (`backend/server.py`).

Expenses and budgets are stored in MongoDB; `prepare_for_mongo` serialises
every `datetime` with Python's `datetime.isoformat()`, so dates live in the
store as ISO-8601 strings and all date comparisons performed by the queries
(`$gte` / `$lt` / `$lte`, `.sort("date", -1)`) are bytewise string
comparisons.  We model amounts (Python floats) as rationals, documents as
structures, each collection as a list, and every handler as a pure function
from a database value (plus the current wall-clock time, which the handlers
read via `datetime.now(timezone.utc)`) to a result and the new database
value.  Per the interface contract all boundary dates are UTC ISO-8601
strings, so the embedded `datetime` type carries no offset and serialises
with the `+00:00` suffix that `isoformat()` produces for `timezone.utc`.
-/

namespace ExpenseBuddy

/-! ### Wall-clock instants (Python `datetime` with `tzinfo=timezone.utc`) -/

structure UTCTime where
  year : Nat
  month : Nat
  day : Nat
  hour : Nat
  minute : Nat
  second : Nat
  microsecond : Nat
deriving DecidableEq, Repr

def isLeapYear (y : Nat) : Bool :=
  (y % 4 == 0 && y % 100 != 0) || y % 400 == 0

def daysInMonth (y m : Nat) : Nat :=
  if m == 2 then (if isLeapYear y then 29 else 28)
  else if m == 4 || m == 6 || m == 9 || m == 11 then 30
  else 31

/-- The field bounds Python's `datetime` enforces at construction. -/
def UTCTime.Valid (t : UTCTime) : Prop :=
  1 ≤ t.year ∧ t.year ≤ 9999 ∧ 1 ≤ t.month ∧ t.month ≤ 12 ∧
  1 ≤ t.day ∧ t.day ≤ daysInMonth t.year t.month ∧
  t.hour < 24 ∧ t.minute < 60 ∧ t.second < 60 ∧ t.microsecond < 1000000

instance (t : UTCTime) : Decidable t.Valid := by
  unfold UTCTime.Valid; infer_instance

def digitChar (n : Nat) : Char := Char.ofNat (48 + n)

def pad2 (n : Nat) : String :=
  ⟨[digitChar (n / 10 % 10), digitChar (n % 10)]⟩

def pad4 (n : Nat) : String :=
  ⟨[digitChar (n / 1000 % 10), digitChar (n / 100 % 10),
    digitChar (n / 10 % 10), digitChar (n % 10)]⟩

def pad6 (n : Nat) : String :=
  ⟨[digitChar (n / 100000 % 10), digitChar (n / 10000 % 10),
    digitChar (n / 1000 % 10), digitChar (n / 100 % 10),
    digitChar (n / 10 % 10), digitChar (n % 10)]⟩

/-- Python `datetime.isoformat()` for a `timezone.utc`-aware datetime:
`YYYY-MM-DDTHH:MM:SS[.ffffff]+00:00`, the fractional part omitted when the
microsecond field is zero.  This is the string `prepare_for_mongo` stores. -/
def UTCTime.isoformat (t : UTCTime) : String :=
  pad4 t.year ++ "-" ++ pad2 t.month ++ "-" ++ pad2 t.day ++ "T" ++
  pad2 t.hour ++ ":" ++ pad2 t.minute ++ ":" ++ pad2 t.second ++
  (if t.microsecond == 0 then "" else "." ++ pad6 t.microsecond) ++ "+00:00"

/-- Python `strftime("%Y-%m")`: the `current_month` key. -/
def UTCTime.monthKey (t : UTCTime) : String :=
  pad4 t.year ++ "-" ++ pad2 t.month

/-! ### MongoDB string comparison

MongoDB compares two strings bytewise; on the ASCII strings produced by
`isoformat()` this is exactly lexicographic comparison of the code points. -/

def strLeb (s t : String) : Bool := decide (s.toList ≤ t.toList)

def strLtb (s t : String) : Bool := decide (s.toList < t.toList)

/-- Lower bound string of the month window used by the aggregation queries:
`f"{current_month}-01T00:00:00.000Z"`. -/
def monthLower (m : String) : String := m ++ "-01T00:00:00.000Z"

/-- Upper bound string of the month window used by the aggregation queries:
`f"{current_month}-31T23:59:59.999Z"`. -/
def monthUpper (m : String) : String := m ++ "-31T23:59:59.999Z"

/-- The `date` filter `{"$gte": monthLower m, "$lt": monthUpper m}` shared by
the budget `spent` pipelines, the monthly total and the category breakdown. -/
def inMonthWindow (m date : String) : Bool :=
  strLeb (monthLower m) date && strLtb date (monthUpper m)

/-! ### Documents and collections -/

structure Category where
  id : String
  name : String
  icon : String
  color : String
deriving DecidableEq, Repr

structure Expense where
  id : String
  user_id : String
  amount : ℚ
  category_id : String
  category_name : String
  description : String
  date : String
  created_at : String
deriving DecidableEq, Repr

structure Budget where
  id : String
  user_id : String
  category_id : String
  category_name : String
  monthly_limit : ℚ
  current_month : String
  spent_amount : ℚ
  created_at : String
deriving DecidableEq, Repr

structure DB where
  categories : List Category
  expenses : List Expense
  budgets : List Budget
deriving DecidableEq, Repr

structure HTTPError where
  status_code : Nat
  detail : String
deriving DecidableEq, Repr

structure ExpenseCreate where
  amount : ℚ
  category_id : String
  description : String
  date : UTCTime
deriving DecidableEq, Repr

structure BudgetCreate where
  category_id : String
  monthly_limit : ℚ
deriving DecidableEq, Repr

/-! ### Sort orders used by the queries -/

/-- `.sort("date", -1)`: descending bytewise order on the stored date. -/
def dateDesc (a b : Expense) : Prop := b.date.toList ≤ a.date.toList

instance : DecidableRel dateDesc := fun a b =>
  inferInstanceAs (Decidable (b.date.toList ≤ a.date.toList))

instance : IsTotal Expense dateDesc :=
  ⟨fun a b => le_total b.date.toList a.date.toList⟩

instance : IsTrans Expense dateDesc :=
  ⟨fun _ _ _ h h' => le_trans h' h⟩

structure CategoryGroup where
  name : String
  amount : ℚ
deriving DecidableEq, Repr

/-- `{"$sort": {"amount": -1}}` on the grouped rows. -/
def amountDesc (p q : CategoryGroup) : Prop := q.amount ≤ p.amount

instance : DecidableRel amountDesc := fun p q =>
  inferInstanceAs (Decidable (q.amount ≤ p.amount))

instance : IsTotal CategoryGroup amountDesc :=
  ⟨fun p q => le_total q.amount p.amount⟩

instance : IsTrans CategoryGroup amountDesc :=
  ⟨fun _ _ _ h h' => le_trans h' h⟩

/-! ### Expense routes -/

/-- `POST /api/expenses` (`create_expense`). -/
def create_expense (db : DB) (user : String) (data : ExpenseCreate)
    (now : UTCTime) (newId : String) : Except HTTPError Expense × DB :=
  match db.categories.find? (fun c => c.id == data.category_id) with
  | none => (.error ⟨404, "Category not found"⟩, db)
  | some cat =>
    let e : Expense :=
      { id := newId, user_id := user, amount := data.amount,
        category_id := data.category_id, category_name := cat.name,
        description := data.description, date := data.date.isoformat,
        created_at := now.isoformat }
    (.ok e, { db with expenses := db.expenses ++ [e] })

/-- Python truthiness of an optional query parameter: `if category_id:` treats
both an absent parameter and an empty string as no filter. -/
def truthy : Option String → Option String
  | some s => if s == "" then none else some s
  | none => none

/-- The MongoDB query document built by `get_expenses`. -/
def expenseMatches (user : String) (cat sd ed : Option String) (e : Expense) : Bool :=
  e.user_id == user &&
  (match cat with | none => true | some c => e.category_id == c) &&
  (match sd with | none => true | some s => strLeb s e.date) &&
  (match ed with | none => true | some s => strLeb e.date s)

/-- `GET /api/expenses` (`get_expenses`): filter by user plus the optional
`category_id` / `start_date` / `end_date` parameters, `.sort("date", -1)`. -/
def get_expenses (db : DB) (user : String)
    (category_id start_date end_date : Option String) : List Expense :=
  List.insertionSort dateDesc
    (db.expenses.filter
      (expenseMatches user (truthy category_id) (truthy start_date) (truthy end_date)))

/-- First value bound to the query-string key `k`. -/
def lookupParam (params : List (String × String)) (k : String) : Option String :=
  (params.find? (fun p => p.1 == k)).map (fun p => p.2)

/-- The HTTP surface of `GET /api/expenses`: the handler signature declares
only `category_id`, `start_date` and `end_date`, so FastAPI binds those three
keys from the query string and ignores every other query parameter. -/
def get_expenses_endpoint (db : DB) (user : String)
    (params : List (String × String)) : List Expense :=
  get_expenses db user (lookupParam params "category_id")
    (lookupParam params "start_date") (lookupParam params "end_date")

/-- `DELETE /api/expenses/{expense_id}` (`delete_expense`): `delete_one` on
`{"id": expense_id, "user_id": user}`, 404 when `deleted_count == 0`. -/
def delete_expense (db : DB) (user eid : String) : Except HTTPError String × DB :=
  if db.expenses.any (fun e => e.id == eid && e.user_id == user) then
    (.ok "Expense deleted successfully",
     { db with expenses := db.expenses.eraseP (fun e => e.id == eid && e.user_id == user) })
  else
    (.error ⟨404, "Expense not found"⟩, db)

/-! ### Budget routes -/

/-- `POST /api/budgets` (`create_budget`): category lookup, duplicate check on
`(user_id, category_id, current_month)` with the month key taken from the
wall clock (`datetime.now(timezone.utc).strftime("%Y-%m")`), then insert.
The request body (`BudgetCreate`) carries no month field. -/
def create_budget (db : DB) (user : String) (data : BudgetCreate)
    (now : UTCTime) (newId : String) : Except HTTPError Budget × DB :=
  match db.categories.find? (fun c => c.id == data.category_id) with
  | none => (.error ⟨404, "Category not found"⟩, db)
  | some cat =>
    if db.budgets.any (fun b =>
        b.user_id == user && b.category_id == data.category_id &&
        b.current_month == now.monthKey) then
      (.error ⟨400, "Budget already exists for this category this month"⟩, db)
    else
      let b : Budget :=
        { id := newId, user_id := user, category_id := data.category_id,
          category_name := cat.name, monthly_limit := data.monthly_limit,
          current_month := now.monthKey, spent_amount := 0,
          created_at := now.isoformat }
      (.ok b, { db with budgets := db.budgets ++ [b] })

/-- The `spent` aggregation pipeline run per budget: match the user, the
budget's category and the current-month window, sum `amount`; an empty
aggregate yields `0.0`. -/
def spentFor (db : DB) (user cat m : String) : ℚ :=
  ((db.expenses.filter (fun e =>
      e.user_id == user && e.category_id == cat && inMonthWindow m e.date)).map
    Expense.amount).sum

/-- `GET /api/budgets` (`get_budgets`): the user's budgets whose month key is
the current month, each annotated with the recomputed `spent_amount`. -/
def get_budgets (db : DB) (user : String) (now : UTCTime) : List Budget :=
  (db.budgets.filter (fun b =>
      b.user_id == user && b.current_month == now.monthKey)).map
    (fun b => { b with spent_amount := spentFor db user b.category_id now.monthKey })

/-! ### Dashboard route -/

/-- The user's expenses matched by the current-month window filter. -/
def monthExpenses (db : DB) (user m : String) : List Expense :=
  db.expenses.filter (fun e => e.user_id == user && inMonthWindow m e.date)

/-- The `$group` stage keyed on `category_name`, summing `amount`: one row per
distinct denormalised category name among `es`. -/
def groupSums (es : List Expense) : List CategoryGroup :=
  ((es.map Expense.category_name).dedup).map (fun n =>
    ⟨n, ((es.filter (fun e => e.category_name == n)).map Expense.amount).sum⟩)

structure BudgetStatusRow where
  category_name : String
  monthly_limit : ℚ
  spent_amount : ℚ
  percentage : ℚ
deriving DecidableEq, Repr

structure DashboardData where
  total_expenses : ℚ
  monthly_expenses : ℚ
  categories_breakdown : List CategoryGroup
  recent_expenses : List Expense
  budget_status : List BudgetStatusRow
deriving DecidableEq, Repr

/-- `GET /api/dashboard` (`get_dashboard`). -/
def get_dashboard (db : DB) (user : String) (now : UTCTime) : DashboardData :=
  let m := now.monthKey
  let mine := db.expenses.filter (fun e => e.user_id == user)
  { total_expenses := (mine.map Expense.amount).sum
    monthly_expenses := ((monthExpenses db user m).map Expense.amount).sum
    categories_breakdown :=
      (List.insertionSort amountDesc (groupSums (monthExpenses db user m))).take 10
    recent_expenses := (List.insertionSort dateDesc mine).take 5
    budget_status :=
      (db.budgets.filter (fun b => b.user_id == user && b.current_month == m)).map
        (fun b =>
          let spent := spentFor db user b.category_id m
          ⟨b.category_name, b.monthly_limit, spent,
           if b.monthly_limit > 0 then spent / b.monthly_limit * 100 else 0⟩) }

/-! ### Registered routes

The full route table of `server.py`: one entry per `@api_router` decorator,
with the router's path head `/api` prepended (`app.include_router`). -/

def registeredRoutes : List (String × String) :=
  [("POST", "/api/auth/register"),
   ("POST", "/api/auth/login"),
   ("GET", "/api/categories"),
   ("POST", "/api/expenses"),
   ("GET", "/api/expenses"),
   ("PUT", "/api/expenses/{expense_id}"),
   ("DELETE", "/api/expenses/{expense_id}"),
   ("POST", "/api/budgets"),
   ("GET", "/api/budgets"),
   ("GET", "/api/dashboard"),
   ("GET", "/api/health")]

/-- Calendar-month membership of a datetime, the notion the specification's
month-boundary requirement speaks about. -/
def inCalendarMonth (y m : Nat) (t : UTCTime) : Bool :=
  t.year == y && t.month == m

/-- The database with every expense and budget not owned by `u` removed (the
category catalog is shared and kept).  Used to state user isolation: a read
performed as `u` over `db` must coincide with the same read over
`restrictTo db u`, i.e. no other user's records influence any part of the
response. -/
def restrictTo (db : DB) (u : String) : DB :=
  ⟨db.categories,
   db.expenses.filter (fun e => e.user_id == u),
   db.budgets.filter (fun b => b.user_id == u)⟩

/-! ### Concrete fixtures used by witnesses and counterexamples -/

def catFood : Category := ⟨"cat-food", "Food & Dining", "🍽️", "#FF6B6B"⟩

/-- A request-time clock value in mid June 2024. -/
def nowJune : UTCTime := ⟨2024, 6, 15, 12, 0, 0, 0⟩

/-- An expense dated exactly midnight UTC on the first day of June 2024. -/
def eJune1 : Expense :=
  { id := "e1", user_id := "u1", amount := 7, category_id := "cat-food",
    category_name := "Food & Dining", description := "breakfast",
    date := UTCTime.isoformat ⟨2024, 6, 1, 0, 0, 0, 0⟩,
    created_at := nowJune.isoformat }

def bC1 : Budget :=
  ⟨"b1", "u1", "cat-food", "Food & Dining", 100, "2024-06", 0, nowJune.isoformat⟩

def dbC1 : DB := ⟨[catFood], [eJune1], [bC1]⟩

/-- A June 2024 expense of 25 against a budget with monthly limit 10. -/
def eJune25 : Expense :=
  ⟨"e2", "u1", 25, "cat-food", "Food & Dining", "lunch",
   UTCTime.isoformat ⟨2024, 6, 10, 9, 0, 0, 0⟩, nowJune.isoformat⟩

def bLimit10 : Budget :=
  ⟨"b2", "u1", "cat-food", "Food & Dining", 10, "2024-06", 0, nowJune.isoformat⟩

def dbOver : DB := ⟨[catFood], [eJune25], [bLimit10]⟩

def bLimit0 : Budget :=
  ⟨"b3", "u1", "cat-food", "Food & Dining", 0, "2024-06", 0, nowJune.isoformat⟩

def dbZero : DB := ⟨[catFood], [eJune25], [bLimit0]⟩

def eBob5 : Expense :=
  ⟨"e5", "bob", 5, "cat-food", "Food & Dining", "coffee and lunch",
   UTCTime.isoformat ⟨2024, 6, 10, 9, 0, 0, 0⟩, nowJune.isoformat⟩

def dbBob : DB := ⟨[catFood], [eBob5], []⟩

def eAlice : Expense :=
  ⟨"ea", "alice", 9, "cat-food", "Food & Dining", "tea",
   UTCTime.isoformat ⟨2024, 6, 3, 10, 0, 0, 0⟩, nowJune.isoformat⟩

def dbIso : DB := ⟨[catFood], [eAlice], []⟩

def eDel : Expense :=
  ⟨"e7", "u1", 3, "cat-food", "Food & Dining", "snack",
   UTCTime.isoformat ⟨2024, 6, 5, 18, 0, 0, 0⟩, nowJune.isoformat⟩

def dbDel : DB := ⟨[catFood], [eDel], []⟩

def dbCat : DB := ⟨[catFood], [], []⟩

def dbC10 : DB := ⟨[catFood], [eJune25], []⟩

def bC10 : Budget :=
  ⟨"b9", "u1", "cat-food", "Food & Dining", 100, "2024-06", 0, nowJune.isoformat⟩

/-! ### Claim theorems -/

/-- C1: the monthly aggregates do NOT sum exactly the expenses dated within
the current calendar month.  Failing input: an expense dated midnight UTC on
the first day of June 2024.  Its stored string `2024-06-01T00:00:00+00:00`
compares bytewise below the window lower bound `2024-06-01T00:00:00.000Z`
(because the character `+` sorts before `.`), so the expense is excluded from
`monthly_expenses`, from the category breakdown and from the budget
`spent_amount`, although it is dated inside June and is counted in the
user's `total_expenses`. -/
theorem monthly_aggregates_exclude_midnight_first_of_month :
    UTCTime.Valid ⟨2024, 6, 1, 0, 0, 0, 0⟩ ∧
    inCalendarMonth 2024 6 ⟨2024, 6, 1, 0, 0, 0, 0⟩ = true ∧
    UTCTime.monthKey nowJune = "2024-06" ∧
    eJune1.date = "2024-06-01T00:00:00+00:00" ∧
    eJune1.user_id = "u1" ∧ eJune1.amount = 7 ∧
    (get_dashboard dbC1 "u1" nowJune).total_expenses = 7 ∧
    (get_dashboard dbC1 "u1" nowJune).monthly_expenses = 0 ∧
    (get_dashboard dbC1 "u1" nowJune).categories_breakdown = [] ∧
    get_budgets dbC1 "u1" nowJune = [bC1] ∧ bC1.spent_amount = 0 := by
  refine ⟨by decide, by decide, by decide, by decide, rfl, rfl, ?_, ?_, ?_, ?_, rfl⟩
  · simp +decide [get_dashboard, dbC1, eJune1]
  · simp +decide [get_dashboard, monthExpenses, dbC1, eJune1]
  · simp +decide [get_dashboard, monthExpenses, groupSums, dbC1, eJune1]
  · simp +decide [get_budgets, spentFor, dbC1, eJune1, bC1]

/-- Helper for C2: a filter whose predicate forces ownership by `u` sees the
same expenses in `db` and in `restrictTo db u`. -/
theorem filter_expenses_restrict (db : DB) (u : String) (p : Expense → Bool)
    (hp : ∀ e, p e = true → e.user_id = u) :
    (restrictTo db u).expenses.filter p = db.expenses.filter p := by
  show (db.expenses.filter (fun e => e.user_id == u)).filter p = db.expenses.filter p
  rw [List.filter_filter]
  apply List.filter_congr
  intro e _
  cases hpe : p e with
  | false => simp
  | true => simp [beq_iff_eq.mpr (hp e hpe)]

/-- Helper for C2: the budget analogue of `filter_expenses_restrict`. -/
theorem filter_budgets_restrict (db : DB) (u : String) (p : Budget → Bool)
    (hp : ∀ b, p b = true → b.user_id = u) :
    (restrictTo db u).budgets.filter p = db.budgets.filter p := by
  show (db.budgets.filter (fun b => b.user_id == u)).filter p = db.budgets.filter p
  rw [List.filter_filter]
  apply List.filter_congr
  intro b _
  cases hpb : p b with
  | false => simp
  | true => simp [beq_iff_eq.mpr (hp b hpb)]

/-- Helper for C2: the per-budget `spent` pipeline reads only the acting
user's expenses. -/
theorem spentFor_restrict (db : DB) (u c m : String) :
    spentFor (restrictTo db u) u c m = spentFor db u c m := by
  unfold spentFor
  rw [filter_expenses_restrict db u _ (fun e he => by
    simp only [Bool.and_eq_true, beq_iff_eq] at he
    exact he.1.1)]

/-- Helper for C2: the month-window match reads only the acting user's
expenses. -/
theorem monthExpenses_restrict (db : DB) (u m : String) :
    monthExpenses (restrictTo db u) u m = monthExpenses db u m := by
  unfold monthExpenses
  rw [filter_expenses_restrict db u _ (fun e he => by
    simp only [Bool.and_eq_true, beq_iff_eq] at he
    exact he.1)]

/-- Helper for C2: `GET expenses` is computed solely from the acting user's
records. -/
theorem get_expenses_restrict (db : DB) (u : String) (c s e : Option String) :
    get_expenses (restrictTo db u) u c s e = get_expenses db u c s e := by
  unfold get_expenses
  rw [filter_expenses_restrict db u _ (fun x hx => by
    simp only [expenseMatches, Bool.and_eq_true, beq_iff_eq] at hx
    exact hx.1.1.1)]

/-- Helper for C2: `GET budgets` — including every recomputed
`spent_amount` — is computed solely from the acting user's records. -/
theorem get_budgets_restrict (db : DB) (u : String) (now : UTCTime) :
    get_budgets (restrictTo db u) u now = get_budgets db u now := by
  unfold get_budgets
  rw [filter_budgets_restrict db u _ (fun b hb => by
    simp only [Bool.and_eq_true, beq_iff_eq] at hb
    exact hb.1)]
  simp only [spentFor_restrict]

/-- Helper for C2: the whole dashboard — totals, monthly sum, category
breakdown, recent list and every budget-status row — is computed solely from
the acting user's records. -/
theorem get_dashboard_restrict (db : DB) (u : String) (now : UTCTime) :
    get_dashboard (restrictTo db u) u now = get_dashboard db u now := by
  have hmine : (restrictTo db u).expenses.filter (fun e => e.user_id == u) =
      db.expenses.filter (fun e => e.user_id == u) :=
    filter_expenses_restrict db u _ (fun e he => beq_iff_eq.mp he)
  have hmonth := monthExpenses_restrict db u now.monthKey
  have hbud : (restrictTo db u).budgets.filter
      (fun b => b.user_id == u && b.current_month == now.monthKey) =
      db.budgets.filter (fun b => b.user_id == u && b.current_month == now.monthKey) :=
    filter_budgets_restrict db u _ (fun b hb => by
      simp only [Bool.and_eq_true, beq_iff_eq] at hb
      exact hb.1)
  simp only [get_dashboard]
  rw [hmine, hmonth, hbud]
  simp only [spentFor_restrict]

/-- C2: (i) every record returned by `GET expenses`, `GET budgets` or the
dashboard's recent-expense list when acting as user `u2` carries
`user_id = u2`, so no record owned by a different user `u1` is ever
returned; and (ii) every read is filtered by the acting user's id: the full
responses of all three list operations — including the dashboard's
`budget_status` rows, category breakdown and monthly/total sums, and the
recomputed `spent_amount` of `GET budgets` — coincide with the responses
over `restrictTo db u2`, the store from which every record of `u1` (and of
every other user) has been removed. -/
theorem list_reads_are_user_scoped (db : DB) (u1 u2 : String) (h : u1 ≠ u2)
    (cat sd ed : Option String) (now : UTCTime) :
    (∀ e ∈ get_expenses db u2 cat sd ed, e.user_id ≠ u1) ∧
    (∀ b ∈ get_budgets db u2 now, b.user_id ≠ u1) ∧
    (∀ e ∈ (get_dashboard db u2 now).recent_expenses, e.user_id ≠ u1) ∧
    (∀ e ∈ (restrictTo db u2).expenses, e.user_id ≠ u1) ∧
    (∀ b ∈ (restrictTo db u2).budgets, b.user_id ≠ u1) ∧
    get_expenses db u2 cat sd ed = get_expenses (restrictTo db u2) u2 cat sd ed ∧
    get_budgets db u2 now = get_budgets (restrictTo db u2) u2 now ∧
    get_dashboard db u2 now = get_dashboard (restrictTo db u2) u2 now := by
  refine ⟨?_, ?_, ?_, ?_, ?_,
    (get_expenses_restrict db u2 cat sd ed).symm,
    (get_budgets_restrict db u2 now).symm,
    (get_dashboard_restrict db u2 now).symm⟩
  · intro e he
    rw [get_expenses, List.mem_insertionSort, List.mem_filter] at he
    have h2 := he.2
    simp only [expenseMatches, Bool.and_eq_true, beq_iff_eq] at h2
    intro hh
    exact h (hh ▸ h2.1.1.1 ▸ rfl)
  · intro b hb
    rw [get_budgets, List.mem_map] at hb
    obtain ⟨b0, hb0, rfl⟩ := hb
    rw [List.mem_filter] at hb0
    have h2 := hb0.2
    simp only [Bool.and_eq_true, beq_iff_eq] at h2
    intro hh
    exact h (hh ▸ h2.1 ▸ rfl)
  · intro e he
    simp only [get_dashboard] at he
    have he2 := List.take_subset 5 _ he
    rw [List.mem_insertionSort, List.mem_filter] at he2
    have h2 := he2.2
    simp only [beq_iff_eq] at h2
    intro hh
    exact h (hh ▸ h2 ▸ rfl)
  · intro e he
    rw [restrictTo] at he
    have h2 := (List.mem_filter.mp he).2
    simp only [beq_iff_eq] at h2
    intro hh
    exact h (hh ▸ h2 ▸ rfl)
  · intro b hb
    rw [restrictTo] at hb
    have h2 := (List.mem_filter.mp hb).2
    simp only [beq_iff_eq] at h2
    intro hh
    exact h (hh ▸ h2 ▸ rfl)

/-- Witness for C2: the expense owned by `alice` in `dbIso` is not returned
when `bob` lists expenses. -/
theorem list_reads_are_user_scoped_witness :
    eAlice ∉ get_expenses dbIso "bob" none none none := fun hm =>
  (list_reads_are_user_scoped dbIso "alice" "bob" (by decide) none none none
    nowJune).1 eAlice hm rfl

/-- C3: every dashboard budget-status row satisfies
`percentage = 0` when `monthly_limit ≤ 0` and
`percentage = spent / monthly_limit * 100` otherwise (no division error on a
zero limit, and no upper clamp); concretely, a budget with limit 10 and
spending 25 reports 250 percent. -/
theorem budget_status_percentage_formula (db : DB) (u : String) (now : UTCTime)
    (row : BudgetStatusRow) (h : row ∈ (get_dashboard db u now).budget_status) :
    (row.percentage =
      if row.monthly_limit > 0 then row.spent_amount / row.monthly_limit * 100 else 0) ∧
    (row.monthly_limit ≤ 0 → row.percentage = 0) ∧
    (get_dashboard dbOver "u1" nowJune).budget_status =
      [⟨"Food & Dining", 10, 25, 250⟩] := by
  refine ?_
  have hconc : (get_dashboard dbOver "u1" nowJune).budget_status =
      [⟨"Food & Dining", 10, 25, 250⟩] := by
    simp +decide [get_dashboard, spentFor, dbOver, eJune25, bLimit10]
    norm_num
  simp only [get_dashboard, List.mem_map] at h
  obtain ⟨b, hb, rfl⟩ := h
  refine ⟨rfl, ?_, hconc⟩
  intro hle
  simp only []
  rw [if_neg (not_lt.mpr hle)]

/-- Witness for C3: the zero-limit budget of `dbZero` yields the row
`⟨"Food & Dining", 0, 25, 0⟩`, whose percentage is a defined 0. -/
theorem budget_status_percentage_formula_witness :
    ((⟨"Food & Dining", 0, 25, 0⟩ : BudgetStatusRow).percentage =
      if (⟨"Food & Dining", 0, 25, 0⟩ : BudgetStatusRow).monthly_limit > 0 then
        (⟨"Food & Dining", 0, 25, 0⟩ : BudgetStatusRow).spent_amount /
          (⟨"Food & Dining", 0, 25, 0⟩ : BudgetStatusRow).monthly_limit * 100
      else 0) ∧
    ((⟨"Food & Dining", 0, 25, 0⟩ : BudgetStatusRow).monthly_limit ≤ 0 →
      (⟨"Food & Dining", 0, 25, 0⟩ : BudgetStatusRow).percentage = 0) ∧
    (get_dashboard dbOver "u1" nowJune).budget_status =
      [⟨"Food & Dining", 10, 25, 250⟩] :=
  budget_status_percentage_formula dbZero "u1" nowJune ⟨"Food & Dining", 0, 25, 0⟩
    (by simp +decide [get_dashboard, spentFor, dbZero, eJune25, bLimit0])
/-- C4: when the acting user already has a budget for the same category and
the current wall-clock month key (the request body carries no month field:
`BudgetCreate` is only a category id and a limit), `create_budget` fails
with HTTP 400 "Budget already exists for this category this month" and
returns the store unchanged.  The category-existence hypothesis reflects the
seeded, never-deleted catalog through which the duplicate was created. -/
theorem create_budget_duplicate_rejected (db : DB) (u : String)
    (data : BudgetCreate) (now : UTCTime) (nid : String)
    (hcat : ∃ c ∈ db.categories, c.id = data.category_id)
    (hdup : ∃ b ∈ db.budgets, b.user_id = u ∧ b.category_id = data.category_id ∧
      b.current_month = now.monthKey) :
    create_budget db u data now nid =
      (.error ⟨400, "Budget already exists for this category this month"⟩, db) := by
  obtain ⟨c, hc, hcid⟩ := hcat
  have hfind : (db.categories.find? (fun c => c.id == data.category_id)).isSome := by
    rw [List.find?_isSome]
    exact ⟨c, hc, by simp [hcid]⟩
  obtain ⟨cat, hcat2⟩ := Option.isSome_iff_exists.mp hfind
  have hany : (db.budgets.any (fun b =>
      b.user_id == u && b.category_id == data.category_id &&
      b.current_month == now.monthKey)) = true := by
    rw [List.any_eq_true]
    obtain ⟨b, hb, h1, h2, h3⟩ := hdup
    exact ⟨b, hb, by simp [h1, h2, h3]⟩
  unfold create_budget
  rw [hcat2]
  dsimp only
  rw [if_pos hany]

/-- Witness for C4: re-creating the `cat-food` budget of `dbOver` during June
2024 is rejected with 400 and leaves the store unchanged. -/
theorem create_budget_duplicate_rejected_witness :
    create_budget dbOver "u1" ⟨"cat-food", 50⟩ nowJune "b9" =
      (.error ⟨400, "Budget already exists for this category this month"⟩, dbOver) :=
  create_budget_duplicate_rejected dbOver "u1" ⟨"cat-food", 50⟩ nowJune "b9"
    ⟨catFood, by simp [dbOver], by decide⟩
    ⟨bLimit10, by simp [dbOver], by decide, by decide, by decide⟩

/-- C5 counterexample: `GET expenses` does not support an amount range or a
free-text search.  The user `bob` owns a single expense of amount 5; listing
with `min_amount=10` still returns it, and listing with `search=zzz` (a
string absent from the description) also returns it, so the claimed amount
and search filters do not exist. -/
theorem get_expenses_ignores_amount_and_search_params :
    get_expenses_endpoint dbBob "bob" [("min_amount", "10")] = [eBob5] ∧
    eBob5.amount < 10 ∧
    get_expenses_endpoint dbBob "bob" [("search", "zzz")] = [eBob5] := by
  refine ⟨?_, by norm_num [eBob5], ?_⟩
  · simp +decide [get_expenses_endpoint, get_expenses, lookupParam, truthy,
      expenseMatches, dbBob, eBob5]
  · simp +decide [get_expenses_endpoint, get_expenses, lookupParam, truthy,
      expenseMatches, dbBob, eBob5]

/-- C5 amended: `GET expenses` supports only the optional category id and the
optional inclusive date range; it returns exactly the acting user's matching
expenses ordered by date descending, and every other query parameter
(amount range, search, sort key, pagination) is ignored — the response is
determined by the three supported keys alone. -/
theorem get_expenses_supported_filters (db : DB) (u : String)
    (params : List (String × String)) :
    List.Perm (get_expenses_endpoint db u params)
      (db.expenses.filter (expenseMatches u
        (truthy (lookupParam params "category_id"))
        (truthy (lookupParam params "start_date"))
        (truthy (lookupParam params "end_date")))) ∧
    List.Sorted dateDesc (get_expenses_endpoint db u params) ∧
    ∀ q : List (String × String),
      lookupParam q "category_id" = lookupParam params "category_id" →
      lookupParam q "start_date" = lookupParam params "start_date" →
      lookupParam q "end_date" = lookupParam params "end_date" →
      get_expenses_endpoint db u q = get_expenses_endpoint db u params := by
  refine ⟨List.perm_insertionSort _ _, List.sorted_insertionSort _ _, ?_⟩
  intro q h1 h2 h3
  unfold get_expenses_endpoint
  rw [h1, h2, h3]

/-- Witness for C5: an unsupported `min_amount` parameter leaves the response
identical to a parameterless request. -/
theorem get_expenses_supported_filters_witness :
    get_expenses_endpoint dbBob "bob" [("min_amount", "10")] =
      get_expenses_endpoint dbBob "bob" [] :=
  (get_expenses_supported_filters dbBob "bob" []).2.2
    [("min_amount", "10")] rfl rfl rfl

/-- C6: the server registers no `PUT` or `DELETE` route for budgets — the
only `PUT`/`DELETE` routes in the route table target expenses, and no route
has the path `/api/budgets/{budget_id}` — so the budget update and delete
operations the specification describes (and the test suite exercises
expecting 200) do not exist; any such request falls through to the
framework's 404/405 handling. -/
theorem no_budget_update_or_delete_route :
    (registeredRoutes.filter (fun r => r.1 == "PUT" || r.1 == "DELETE")) =
      [("PUT", "/api/expenses/{expense_id}"), ("DELETE", "/api/expenses/{expense_id}")] ∧
    (registeredRoutes.all (fun r => r.2 != "/api/budgets/{budget_id}")) = true := by
  decide
/-- Helper for C7: after `delete_one` removes the owned expense matching
`eid`, no expense with id `eid` remains, provided expense ids are distinct
(they are generated by `uuid4`). -/
theorem eraseP_owned_id_free (u eid : String) :
    ∀ (l : List Expense), (l.map Expense.id).Nodup →
      ∀ e ∈ l, e.id = eid → e.user_id = u →
      ∀ x ∈ l.eraseP (fun x => x.id == eid && x.user_id == u), x.id ≠ eid := by
  intro l
  induction l with
  | nil => intro _ e he; cases he
  | cons a l ih =>
    intro hnd e he hid hu x hx
    rw [List.map_cons, List.nodup_cons] at hnd
    by_cases hpa : (a.id == eid && a.user_id == u) = true
    · simp only [List.eraseP_cons, hpa, cond_true] at hx
      simp only [Bool.and_eq_true, beq_iff_eq] at hpa
      intro hxid
      exact hnd.1 (hpa.1 ▸ hxid ▸ List.mem_map_of_mem Expense.id hx)
    · have hpa2 : (a.id == eid && a.user_id == u) = false := by
        simpa using hpa
      simp only [List.eraseP_cons, hpa2, cond_false] at hx
      have hea : e ≠ a := by
        rintro rfl
        exact hpa (by simp [hid, hu])
      have hel : e ∈ l := by
        rcases List.mem_cons.mp he with rfl | h2
        · exact absurd rfl hea
        · exact h2
      rcases List.mem_cons.mp hx with rfl | hx2
      · intro hxid
        exact hnd.1 (hxid ▸ (hid ▸ List.mem_map_of_mem Expense.id hel))
      · exact ih hnd.2 e hel hid hu x hx2

/-- C7: deleting an expense id not owned by the acting user fails with 404
and leaves the store unchanged; deleting an owned expense returns the
success message, and — expense ids being distinct — a second delete of the
same id fails with 404: deletion is not idempotent. -/
theorem delete_expense_not_found_and_not_idempotent (db : DB) (u eid : String)
    (hnd : (db.expenses.map Expense.id).Nodup) :
    ((¬ ∃ e ∈ db.expenses, e.id = eid ∧ e.user_id = u) →
      delete_expense db u eid = (.error ⟨404, "Expense not found"⟩, db)) ∧
    (∀ e ∈ db.expenses, e.id = eid → e.user_id = u →
      (delete_expense db u eid).1 = .ok "Expense deleted successfully" ∧
      delete_expense (delete_expense db u eid).2 u eid =
        (.error ⟨404, "Expense not found"⟩, (delete_expense db u eid).2)) := by
  constructor
  · intro hno
    have hany : (db.expenses.any (fun e => e.id == eid && e.user_id == u)) = false := by
      rw [← Bool.not_eq_true, List.any_eq_true]
      rintro ⟨e, he, hp⟩
      simp only [Bool.and_eq_true, beq_iff_eq] at hp
      exact hno ⟨e, he, hp.1, hp.2⟩
    unfold delete_expense
    rw [hany]
    simp
  · intro e he hid hu
    have hany : (db.expenses.any (fun e => e.id == eid && e.user_id == u)) = true := by
      rw [List.any_eq_true]
      exact ⟨e, he, by simp [hid, hu]⟩
    have hfree := eraseP_owned_id_free u eid db.expenses hnd e he hid hu
    have hstep : delete_expense db u eid = (.ok "Expense deleted successfully",
        { db with expenses := db.expenses.eraseP (fun e => e.id == eid && e.user_id == u) }) := by
      unfold delete_expense
      rw [hany]
      simp
    have hany2 : ((db.expenses.eraseP (fun x => x.id == eid && x.user_id == u)).any
        (fun x => x.id == eid && x.user_id == u)) = false := by
      rw [← Bool.not_eq_true, List.any_eq_true]
      rintro ⟨x, hx, hp⟩
      simp only [Bool.and_eq_true, beq_iff_eq] at hp
      exact hfree x hx hp.1
    constructor
    · rw [hstep]
    · rw [hstep]
      unfold delete_expense
      dsimp only
      rw [hany2]
      simp

/-- Witness for C7: deleting `e7` from `dbDel` succeeds, and deleting it a
second time fails with 404. -/
theorem delete_expense_not_found_and_not_idempotent_witness :
    (delete_expense dbDel "u1" "e7").1 = .ok "Expense deleted successfully" ∧
    delete_expense (delete_expense dbDel "u1" "e7").2 "u1" "e7" =
      (.error ⟨404, "Expense not found"⟩, (delete_expense dbDel "u1" "e7").2) :=
  (delete_expense_not_found_and_not_idempotent dbDel "u1" "e7"
    (by decide)).2 eDel (by simp [dbDel]) (by decide) (by decide)

/-- C8: the dashboard category breakdown is the head of a descending sort of
the per-category-name sums of the user's current-month expenses: it equals
`take 10` of a sorted permutation of the grouped sums,
has at most 10 rows, and each row pairs a category name occurring among the
month's expenses with the exact sum of that name's amounts. -/
theorem categories_breakdown_top10_sorted (db : DB) (u : String) (now : UTCTime) :
    ∃ full : List CategoryGroup,
      List.Perm full (groupSums (monthExpenses db u now.monthKey)) ∧
      List.Sorted amountDesc full ∧
      (get_dashboard db u now).categories_breakdown = full.take 10 ∧
      (get_dashboard db u now).categories_breakdown.length ≤ 10 ∧
      ∀ g ∈ (get_dashboard db u now).categories_breakdown,
        (∃ e ∈ monthExpenses db u now.monthKey, e.category_name = g.name) ∧
        g.amount = (((monthExpenses db u now.monthKey).filter
          (fun e => e.category_name == g.name)).map Expense.amount).sum := by
  refine ⟨List.insertionSort amountDesc (groupSums (monthExpenses db u now.monthKey)),
    List.perm_insertionSort _ _, List.sorted_insertionSort _ _, rfl, ?_, ?_⟩
  · simp only [get_dashboard, List.length_take]
    exact min_le_left _ _
  · intro g hg
    simp only [get_dashboard] at hg
    have hg2 : g ∈ groupSums (monthExpenses db u now.monthKey) := by
      have := List.take_subset 10 _ hg
      rwa [List.mem_insertionSort] at this
    rw [groupSums, List.mem_map] at hg2
    obtain ⟨n, hn, rfl⟩ := hg2
    constructor
    · rw [List.mem_dedup, List.mem_map] at hn
      obtain ⟨e, he, rfl⟩ := hn
      exact ⟨e, he, rfl⟩
    · rfl

/-- Witness for C8: on `dbOver` the breakdown is within the length bound. -/
theorem categories_breakdown_top10_sorted_witness :
    (get_dashboard dbOver "u1" nowJune).categories_breakdown.length ≤ 10 := by
  obtain ⟨full, -, -, -, hlen, -⟩ :=
    categories_breakdown_top10_sorted dbOver "u1" nowJune
  exact hlen

/-- C9: creating an expense for an existing category succeeds and the very
record returned by the create reappears when the user lists expenses with no
filters, with identical amount, category id, description and (serialised)
date. -/
theorem create_expense_roundtrip (db : DB) (u : String) (data : ExpenseCreate)
    (now : UTCTime) (nid : String)
    (hcat : ∃ c ∈ db.categories, c.id = data.category_id) :
    ∃ e db2, create_expense db u data now nid = (.ok e, db2) ∧
      e ∈ get_expenses db2 u none none none ∧
      e.amount = data.amount ∧ e.category_id = data.category_id ∧
      e.description = data.description ∧ e.date = data.date.isoformat := by
  obtain ⟨c, hc, hcid⟩ := hcat
  have hfind : (db.categories.find? (fun c => c.id == data.category_id)).isSome := by
    rw [List.find?_isSome]
    exact ⟨c, hc, by simp [hcid]⟩
  obtain ⟨cat, hcat2⟩ := Option.isSome_iff_exists.mp hfind
  refine ⟨{ id := nid, user_id := u, amount := data.amount,
            category_id := data.category_id, category_name := cat.name,
            description := data.description, date := data.date.isoformat,
            created_at := now.isoformat },
          { db with expenses := db.expenses ++
            [{ id := nid, user_id := u, amount := data.amount,
               category_id := data.category_id, category_name := cat.name,
               description := data.description, date := data.date.isoformat,
               created_at := now.isoformat }] },
          ?_, ?_, rfl, rfl, rfl, rfl⟩
  · unfold create_expense
    rw [hcat2]
  · rw [get_expenses, List.mem_insertionSort, List.mem_filter]
    refine ⟨by simp, ?_⟩
    simp [expenseMatches, truthy]

/-- Witness for C9: creating a 12-amount expense in the seeded catalog and
listing immediately yields it back. -/
theorem create_expense_roundtrip_witness :
    ∃ e db2, create_expense dbCat "u1" ⟨12, "cat-food", "juice", ⟨2024, 6, 2, 8, 0, 0, 0⟩⟩
        nowJune "e9" = (.ok e, db2) ∧
      e ∈ get_expenses db2 "u1" none none none ∧
      e.amount = 12 ∧ e.category_id = "cat-food" ∧
      e.description = "juice" ∧
      e.date = UTCTime.isoformat ⟨2024, 6, 2, 8, 0, 0, 0⟩ :=
  create_expense_roundtrip dbCat "u1" ⟨12, "cat-food", "juice", ⟨2024, 6, 2, 8, 0, 0, 0⟩⟩
    nowJune "e9" ⟨catFood, by simp [dbCat], by decide⟩

/-- C10: whenever `create_budget` succeeds, the budget in the response body
carries `spent_amount = 0` — the model default, never a recomputed sum —
regardless of the expenses already in the store. -/
theorem created_budget_spent_amount_zero (db : DB) (u : String)
    (data : BudgetCreate) (now : UTCTime) (nid : String) (b : Budget) (db2 : DB)
    (h : create_budget db u data now nid = (.ok b, db2)) : b.spent_amount = 0 := by
  unfold create_budget at h
  split at h
  · simp at h
  · split at h
    · simp at h
    · simp only [Prod.mk.injEq, Except.ok.injEq] at h
      obtain ⟨h1, -⟩ := h
      subst h1
      rfl

/-- Witness for C10: although `u1` already spent 25 on `cat-food` during the
current month in `dbC10`, the created budget reports `spent_amount = 0`. -/
theorem created_budget_spent_amount_zero_witness : bC10.spent_amount = 0 :=
  created_budget_spent_amount_zero dbC10 "u1" ⟨"cat-food", 100⟩ nowJune "b9" bC10
    { dbC10 with budgets := dbC10.budgets ++ [bC10] }
    (by simp +decide [create_budget, dbC10, catFood, bC10, eJune25])

end ExpenseBuddy
